import Mathlib

/-!
Verification of the episode-music-mood pipeline (`main.go`), shallowly
embedded.  Network calls are passed in as oracle functions; JSON-decoded
response bodies are the structure types below.  Go `float32`/`float64`
values are modelled as exact rationals wrapped in `Option`: `none` stands
for IEEE NaN.  The only division by zero the program can reach is `0 / 0`
(averaging an empty mood list), which IEEE maps to NaN, so `divF` sends
every division by zero to `none`; IEEE infinities, overflow and rounding
are outside the model (all inputs are finite numbers decoded from JSON,
and every other divisor in the program is a nonzero constant).
-/

namespace EpisodeMood

/-- A Go floating-point value: `some q` is the finite number `q`, `none` is NaN. -/
abbrev GoFloat := Option ℚ

def addF : GoFloat → GoFloat → GoFloat
  | some a, some b => some (a + b)
  | _, _ => none

def divF : GoFloat → GoFloat → GoFloat
  | some a, some b => if b = 0 then none else some (a / b)
  | _, _ => none

def isNaNF : GoFloat → Bool
  | none => true
  | some _ => false

/-- A Go runtime panic aborting the process. -/
inductive goPanic where
  | indexOutOfRange
  | nilPointerDeref
  deriving DecidableEq

structure version where
  id : String
  deriving DecidableEq

structure episode where
  versions : List version
  deriving DecidableEq

structure iblEpisodesResponse where
  episodes : List episode
  deriving DecidableEq

structure playlisterSegment where
  recordID : String
  deriving DecidableEq

structure playlisterResponse where
  segments : List playlisterSegment
  deriving DecidableEq

structure externalLink where
  type : String
  value : String
  deriving DecidableEq

/-- Fields of `spotify.AudioFeatures` used by the program (all `float32`,
finite after JSON decoding). -/
structure audioFeatures where
  valence : ℚ
  danceability : ℚ
  energy : ℚ
  liveness : ℚ
  loudness : ℚ
  deriving DecidableEq

/-- The track-level summary of `spotify.AudioAnalysis` (field `Track.Tempo`). -/
structure analysisTrack where
  tempo : ℚ
  deriving DecidableEq

structure audioAnalysis where
  track : analysisTrack
  deriving DecidableEq

structure spotifyTrackData where
  features : audioFeatures
  analysis : audioAnalysis
  deriving DecidableEq

structure mood where
  chillFactor : GoFloat
  happinessFactor : GoFloat
  deriving DecidableEq

/-- `getVersionID` (main.go lines 135-141), applied to the decoded lookup
response: empty episode list and empty version list of the first episode are
checked before `Episodes[0].Versions[0].ID` is read. -/
def getVersionID (resp : iblEpisodesResponse) : Except String String :=
  match resp.episodes with
  | [] => .error "Episode not found"
  | ep :: _ =>
    match ep.versions with
    | [] => .error "No Version available"
    | v :: _ => .ok v.id

/-- `getRecordIDs` (main.go lines 113-119), applied to the decoded playlister
response: a loop appending each segment's `RecordID` to an initially nil slice. -/
def getRecordIDs (res : playlisterResponse) : List String :=
  res.segments.foldl (fun recordIds segment => recordIds ++ [segment.recordID]) []

/-- Split a character list at every occurrence of `sep`, keeping empty
segments, as Go's `strings.Split` does for a single-character separator. -/
def splitOnChar (sep : Char) : List Char → List (List Char)
  | [] => [[]]
  | c :: rest =>
    if c = sep then [] :: splitOnChar sep rest
    else
      match splitOnChar sep rest with
      | [] => [[c]]
      | s :: ss => (c :: s) :: ss

/-- Go's `strings.Split(s, sep)` for the single-character separator the
program uses (`":"`): all substrings of `s` between occurrences of `sep`,
including empty ones; an empty `s` yields `[""]`. -/
def goSplit (s : String) (sep : Char) : List String :=
  (splitOnChar sep s.data).map String.mk

/-- The SPOTIFY-link selection loop of `main` (lines 260-268): for each link
whose `Type` is "SPOTIFY" the value is split on ":" and element 2 is read with
no bounds check — a value with fewer than 3 segments makes `Split`'s result
too short and the Go expression `spotifyIDSegments[2]` panics with an
index-out-of-range error, modelled as `Except.error .indexOutOfRange`. -/
def selectTracksAux : List externalLink → List String → Except goPanic (List String)
  | [], spotifyIDs => .ok spotifyIDs
  | l :: rest, spotifyIDs =>
    if l.type = "SPOTIFY" then
      match (goSplit l.value ':')[2]? with
      | none => .error .indexOutOfRange
      | some spotifyTrackID => selectTracksAux rest (spotifyIDs ++ [spotifyTrackID])
    else
      selectTracksAux rest spotifyIDs

def selectTracks (links : List externalLink) : Except goPanic (List String) :=
  selectTracksAux links []

/-- `getSpotifyData` (main.go lines 185-199) with the two per-track fetches as
oracles returning `none` on failure.  The Go code discards both fetch errors;
on failure `GetAudioFeatures` yields a nil slice (here `(… ).getD []`) and
`GetAudioAnalysis` a nil pointer, so building the struct literal dereferences
a nil `analysisPointer` (panic) or indexes `featurePointer[0]` out of range. -/
def getSpotifyDataAux (fetchFeatures : String → Option (List audioFeatures))
    (fetchAnalysis : String → Option audioAnalysis) :
    List String → List spotifyTrackData → Except goPanic (List spotifyTrackData)
  | [], tracks => .ok tracks
  | trackID :: rest, tracks =>
    let featurePointer := (fetchFeatures trackID).getD []
    match fetchAnalysis trackID with
    | none => .error .nilPointerDeref
    | some analysisValue =>
      match featurePointer.head? with
      | none => .error .indexOutOfRange
      | some firstFeatures =>
        getSpotifyDataAux fetchFeatures fetchAnalysis rest
          (tracks ++ [{ features := firstFeatures, analysis := analysisValue }])

def getSpotifyData (fetchFeatures : String → Option (List audioFeatures))
    (fetchAnalysis : String → Option audioAnalysis)
    (trackIDs : List String) : Except goPanic (List spotifyTrackData) :=
  getSpotifyDataAux fetchFeatures fetchAnalysis trackIDs []

/-- Body of the per-track loop of `getMood` (main.go lines 205-216): tempo is
read from the analysis bundle's track summary, the four factors and loudness
from the features bundle.  Both results are finite (`some`): the divisors 120
and 30 are nonzero constants. -/
def moodOfTrack (track : spotifyTrackData) : mood :=
  let trackAnalysis := track.analysis.track
  let trackFeatures := track.features
  { happinessFactor := some (5 * (trackFeatures.valence - 0.5) *
      (trackFeatures.danceability * trackFeatures.energy * trackFeatures.liveness)),
    chillFactor := some ((trackAnalysis.tempo / 120) *
      ((trackFeatures.loudness + 30) / 30)) }

/-- `getMood` (main.go lines 202-230): build the per-track mood list, total the
two factors over it, and divide each total by the list length.  For an empty
list both totals are 0 and the length is 0, so both quotients are NaN. -/
def getMood (tracks : List spotifyTrackData) : mood :=
  let moods := tracks.map moodOfTrack
  let totals := moods.foldl
    (fun acc m => (addF acc.1 m.happinessFactor, addF acc.2 m.chillFactor))
    (some 0, some 0)
  let totalMoods : GoFloat := some (moods.length : ℚ)
  { happinessFactor := divF totals.1 totalMoods,
    chillFactor := divF totals.2 totalMoods }

/-- Go's `json.Marshal` fails with an `UnsupportedValueError` on a NaN float
and then returns a nil byte slice; on success it renders the two-field JSON
object. -/
def marshalMood (m : mood) : Option String :=
  match m.chillFactor, m.happinessFactor with
  | some c, some h =>
    some ("\x7b\"chillFactor\":" ++ toString c ++
      ",\"happinessFactor\":" ++ toString h ++ "\x7d")
  | _, _ => none

/-- Tail of `main` (lines 271-277): the mood is marshalled first, its error
discarded (`moodJSON, _ := json.Marshal(mood)`, nil bytes printing as the
empty string); then `math.IsNaN` is tested on the chill factor only —
`returnError("No mood data available")` on NaN, otherwise the marshalled
bytes are printed and the process exits zero (`Except.ok`). -/
def emitMood (m : mood) : Except String String :=
  let moodJSON := (marshalMood m).getD ""
  if isNaNF m.chillFactor then .error "No mood data available"
  else .ok moodJSON

/-- Modelled from the spec's words (§4.5c): the happiness formula. -/
def specHappiness (valence danceability energy liveness : ℚ) : ℚ :=
  5 * (valence - 0.5) * (danceability * energy * liveness)

/-- Modelled from the spec's words (§4.5c): the chill-factor formula, tempo
from the analysis bundle's track-level summary, loudness from features. -/
def specChillFactor (tempo loudness : ℚ) : ℚ :=
  (tempo / 120) * ((loudness + 30) / 30)

/-- Analysis-side view of the happiness value of one track. -/
def happinessQ (t : spotifyTrackData) : ℚ :=
  5 * (t.features.valence - 0.5) *
    (t.features.danceability * t.features.energy * t.features.liveness)

/-- Analysis-side view of the chill-factor value of one track. -/
def chillQ (t : spotifyTrackData) : ℚ :=
  (t.analysis.track.tempo / 120) * ((t.features.loudness + 30) / 30)

theorem moodOfTrack_eq (t : spotifyTrackData) :
    moodOfTrack t = { chillFactor := some (chillQ t), happinessFactor := some (happinessQ t) } :=
  rfl

theorem foldl_append_singleton {α β : Type} (f : α → β) :
    ∀ (l : List α) (acc : List β),
      l.foldl (fun acc x => acc ++ [f x]) acc = acc ++ l.map f
  | [], acc => by simp
  | x :: rest, acc => by
    simp [List.foldl_cons, foldl_append_singleton f rest]

theorem selectTracksAux_ok :
    ∀ (links : List externalLink),
      (∀ l ∈ links, l.type = "SPOTIFY" → 3 ≤ (goSplit l.value ':').length) →
      ∀ acc, selectTracksAux links acc =
        .ok (acc ++ (links.filter fun l => l.type == "SPOTIFY").map
          (fun l => ((goSplit l.value ':')[2]?).getD ""))
  | [], _, acc => by simp [selectTracksAux]
  | l :: rest, h, acc => by
    have hrest := selectTracksAux_ok rest (fun x hx => h x (List.mem_cons_of_mem l hx))
    by_cases hspot : l.type = "SPOTIFY"
    · have hlen : 2 < (goSplit l.value ':').length := h l (List.mem_cons_self l rest) hspot
      have hsome : (goSplit l.value ':')[2]? = some (goSplit l.value ':')[2] :=
        List.getElem?_eq_getElem hlen
      simp only [selectTracksAux, if_pos hspot, hsome, hrest]
      simp [List.filter_cons, hspot, hsome]
    · simp only [selectTracksAux, if_neg hspot, hrest]
      have : (l.type == "SPOTIFY") = false := by
        simpa using hspot
      simp [List.filter_cons, this]

theorem selectTracksAux_error :
    ∀ (links : List externalLink),
      (∃ l ∈ links, l.type = "SPOTIFY" ∧ (goSplit l.value ':').length < 3) →
      ∀ acc, selectTracksAux links acc = .error .indexOutOfRange
  | [], h, _ => by simp at h
  | l :: rest, h, acc => by
    by_cases hspot : l.type = "SPOTIFY"
    · by_cases hlen : (goSplit l.value ':').length < 3
      · have hnone : (goSplit l.value ':')[2]? = none := by
          rw [List.getElem?_eq_none_iff]
          omega
        simp only [selectTracksAux, if_pos hspot, hnone]
      · obtain ⟨x, hx, hxs, hxl⟩ := h
        have hxrest : x ∈ rest := by
          rcases List.mem_cons.mp hx with h1 | h1
          · exact absurd (h1 ▸ hxl) hlen
          · exact h1
        have hrest := selectTracksAux_error rest ⟨x, hxrest, hxs, hxl⟩
        have hsome : (goSplit l.value ':')[2]? = some (goSplit l.value ':')[2] :=
          List.getElem?_eq_getElem (by omega)
        simp only [selectTracksAux, if_pos hspot, hsome, hrest]
    · obtain ⟨x, hx, hxs, hxl⟩ := h
      have hxrest : x ∈ rest := by
        rcases List.mem_cons.mp hx with h1 | h1
        · exact absurd (h1 ▸ hxs) hspot
        · exact h1
      have hrest := selectTracksAux_error rest ⟨x, hxrest, hxs, hxl⟩
      simp only [selectTracksAux, if_neg hspot, hrest]

theorem getSpotifyDataAux_error (fetchFeatures : String → Option (List audioFeatures))
    (fetchAnalysis : String → Option audioAnalysis) :
    ∀ (ids : List String),
      (∃ id ∈ ids, fetchAnalysis id = none ∨ (fetchFeatures id).getD [] = []) →
      ∀ acc, ∃ e, getSpotifyDataAux fetchFeatures fetchAnalysis ids acc = .error e
  | [], h, _ => by simp at h
  | trackID :: rest, h, acc => by
    rcases hana : fetchAnalysis trackID with _ | analysisValue
    · exact ⟨.nilPointerDeref, by simp only [getSpotifyDataAux, hana]⟩
    · rcases hfeat : ((fetchFeatures trackID).getD []).head? with _ | firstFeatures
      · exact ⟨.indexOutOfRange, by simp only [getSpotifyDataAux, hana, hfeat]⟩
      · obtain ⟨x, hx, hxf⟩ := h
        have hxrest : x ∈ rest := by
          rcases List.mem_cons.mp hx with h1 | h1
          · subst h1
            rcases hxf with h2 | h2
            · rw [hana] at h2; exact Option.noConfusion h2
            · rw [h2] at hfeat; exact Option.noConfusion hfeat
          · exact h1
        obtain ⟨e, he⟩ := getSpotifyDataAux_error fetchFeatures fetchAnalysis rest
          ⟨x, hxrest, hxf⟩ (acc ++ [{ features := firstFeatures, analysis := analysisValue }])
        exact ⟨e, by simp only [getSpotifyDataAux, hana, hfeat, he]⟩

theorem addF_some (a b : ℚ) : addF (some a) (some b) = some (a + b) := rfl

theorem getMood_totals (tracks : List spotifyTrackData) :
    ∀ (a b : ℚ), (tracks.map moodOfTrack).foldl
        (fun acc m => (addF acc.1 m.happinessFactor, addF acc.2 m.chillFactor))
        (some a, some b) =
      (some (a + (tracks.map happinessQ).sum), some (b + (tracks.map chillQ).sum)) := by
  induction tracks with
  | nil => intro a b; simp
  | cons t rest ih =>
    intro a b
    simp only [List.map_cons, List.foldl_cons, moodOfTrack_eq, addF_some, List.sum_cons]
    rw [ih]
    simp [add_assoc]

theorem getMood_eq (tracks : List spotifyTrackData) :
    getMood tracks =
      { chillFactor := divF (some (tracks.map chillQ).sum) (some (tracks.length : ℚ)),
        happinessFactor := divF (some (tracks.map happinessQ).sum) (some (tracks.length : ℚ)) } := by
  simp only [getMood, getMood_totals tracks 0 0, zero_add, List.length_map]

/-! Concrete inputs used by witnesses and counterexamples. -/

def trackA : spotifyTrackData := ⟨⟨0.8, 0.6, 0.7, 0.5, -10⟩, ⟨⟨130⟩⟩⟩

def trackB : spotifyTrackData := ⟨⟨0.2, 0.4, 0.9, 0.3, -5⟩, ⟨⟨90⟩⟩⟩

def fetchFeaturesOk : String → Option (List audioFeatures) :=
  fun _ => some [⟨0.8, 0.6, 0.7, 0.5, -10⟩]

def fetchAnalysisFailsT2 : String → Option audioAnalysis :=
  fun trackID => if trackID = "t2" then none else some ⟨⟨130⟩⟩

/-- C1: for every track, the mood pair computed by the loop body of `getMood`
is exactly the spec's formulas — happiness = 5 * (valence - 0.5) *
(danceability * energy * liveness) from the features bundle, and chillFactor =
(tempo / 120) * ((loudness + 30) / 30) with tempo from the analysis bundle's
track-level summary and loudness from the features bundle. -/
theorem c1_per_track_mood_formula (t : spotifyTrackData) :
    moodOfTrack t =
      { chillFactor := some (specChillFactor t.analysis.track.tempo t.features.loudness),
        happinessFactor := some (specHappiness t.features.valence t.features.danceability
          t.features.energy t.features.liveness) } :=
  rfl

/-- C2: aggregating zero tracks produces NaN in both factors and the pipeline
fails with the NoMoodData error ("No mood data available"); no mood result
reaches the caller in that case. -/
theorem c2_zero_tracks_no_mood_data :
    getMood [] = { chillFactor := none, happinessFactor := none } ∧
      emitMood (getMood []) = .error "No mood data available" := by
  constructor <;> rfl

/-- C3 counterexample: on a SPOTIFY link whose value "spotifytrack" has a
single colon-delimited segment, the selector panics with index out of range —
the program has no MalformedLink error path at all. -/
theorem c3_counterexample :
    selectTracks [{ type := "SPOTIFY", value := "spotifytrack" }] =
      .error .indexOutOfRange :=
  rfl

/-- C3 amended: whenever some link of type "SPOTIFY" has fewer than 3
colon-delimited segments in its value, TrackSelector aborts with the
index-out-of-range panic instead of a MalformedLink error. -/
theorem c3_malformed_spotify_link_panics (links : List externalLink)
    (h : ∃ l ∈ links, l.type = "SPOTIFY" ∧ (goSplit l.value ':').length < 3) :
    selectTracks links = .error .indexOutOfRange :=
  selectTracksAux_error links h []

/-- Witness for the amended C3 theorem at the two-segment value
"spotify:track". -/
theorem c3_malformed_spotify_link_panics_witness :
    selectTracks [{ type := "SPOTIFY", value := "spotify:track" }] =
      .error .indexOutOfRange :=
  c3_malformed_spotify_link_panics _
    ⟨{ type := "SPOTIFY", value := "spotify:track" }, by decide, by decide, by decide⟩

/-- C4: when every SPOTIFY link value has at least 3 colon-delimited segments,
TrackSelector succeeds with exactly the third segment of each SPOTIFY-typed
link (case-sensitive match), in input order with duplicates preserved, and the
output length equals the number of SPOTIFY links. -/
theorem c4_selector_keeps_spotify_third_segments (links : List externalLink)
    (h : ∀ l ∈ links, l.type = "SPOTIFY" → 3 ≤ (goSplit l.value ':').length) :
    selectTracks links =
        .ok ((links.filter fun l => l.type == "SPOTIFY").map
          (fun l => ((goSplit l.value ':')[2]?).getD "")) ∧
      ((links.filter fun l => l.type == "SPOTIFY").map
          (fun l => ((goSplit l.value ':')[2]?).getD "")).length =
        (links.filter fun l => l.type == "SPOTIFY").length := by
  refine ⟨?_, by simp⟩
  simpa using selectTracksAux_ok links h []

/-- A SPOTIFY link, a non-SPOTIFY link and a duplicate, for the C4 witness. -/
def witnessLinks : List externalLink :=
  [⟨"SPOTIFY", "spotify:track:tid1"⟩, ⟨"OTHER", "x"⟩, ⟨"SPOTIFY", "spotify:track:tid1"⟩]

/-- Witness for C4 at `witnessLinks`. -/
theorem c4_selector_keeps_spotify_third_segments_witness :
    selectTracks witnessLinks =
        .ok ((witnessLinks.filter fun l => l.type == "SPOTIFY").map
          (fun l => ((goSplit l.value ':')[2]?).getD "")) ∧
      ((witnessLinks.filter fun l => l.type == "SPOTIFY").map
          (fun l => ((goSplit l.value ':')[2]?).getD "")).length =
        (witnessLinks.filter fun l => l.type == "SPOTIFY").length :=
  c4_selector_keeps_spotify_third_segments witnessLinks (by decide)

/-- C5 counterexample: with track "t1" fetching fine and the analysis fetch
for "t2" failing, getSpotifyData panics with a nil-pointer dereference instead
of returning the "t1" data with "t2" excluded: one failed track aborts the
whole pipeline even though not all tracks failed. -/
theorem c5_counterexample :
    getSpotifyData fetchFeaturesOk fetchAnalysisFailsT2 ["t1", "t2"] =
        .error .nilPointerDeref ∧
      getSpotifyData fetchFeaturesOk fetchAnalysisFailsT2 ["t1", "t2"] ≠
        .ok [{ features := ⟨0.8, 0.6, 0.7, 0.5, -10⟩, analysis := ⟨⟨130⟩⟩ }] := by
  have h1 : getSpotifyData fetchFeaturesOk fetchAnalysisFailsT2 ["t1", "t2"] =
      .error .nilPointerDeref := rfl
  exact ⟨h1, by simp [h1]⟩

/-- C5 amended: whenever any requested track's audio-analysis fetch fails (nil
pointer) or its audio-features fetch fails (nil slice), getSpotifyData panics
and the whole pipeline aborts; failing tracks are never merely excluded. -/
theorem c5_failed_fetch_aborts (fetchFeatures : String → Option (List audioFeatures))
    (fetchAnalysis : String → Option audioAnalysis) (trackIDs : List String)
    (h : ∃ id ∈ trackIDs, fetchAnalysis id = none ∨ (fetchFeatures id).getD [] = []) :
    ∃ e, getSpotifyData fetchFeatures fetchAnalysis trackIDs = .error e :=
  getSpotifyDataAux_error fetchFeatures fetchAnalysis trackIDs h []

/-- Witness for the amended C5 theorem: the analysis fetch for "t2" fails. -/
theorem c5_failed_fetch_aborts_witness :
    ∃ e, getSpotifyData fetchFeaturesOk fetchAnalysisFailsT2 ["t1", "t2"] = .error e :=
  c5_failed_fetch_aborts _ _ _ ⟨"t2", by decide, Or.inl (by decide)⟩

/-- C6: when the lookup response contains at least one episode and its first
episode at least one version, getVersionID returns the ID of the first version
of the first episode, whatever else the response contains. -/
theorem c6_first_version_of_first_episode (resp : iblEpisodesResponse)
    (ep : episode) (v : version)
    (hep : resp.episodes.head? = some ep) (hv : ep.versions.head? = some v) :
    getVersionID resp = .ok v.id := by
  rcases resp with ⟨eps⟩
  rcases eps with _ | ⟨e, rest⟩
  · exact absurd hep (by simp)
  · have he : e = ep := by simpa using hep
    subst he
    rcases hvs : e.versions with _ | ⟨v0, vrest⟩
    · rw [hvs] at hv
      exact absurd hv (by simp)
    · have hv0 : v0 = v := by
        rw [hvs] at hv
        simpa using hv
      subst hv0
      simp [getVersionID, hvs]

/-- Witness for C6: two episodes, the first with two versions. -/
theorem c6_first_version_of_first_episode_witness :
    getVersionID ⟨[⟨[⟨"vpid1"⟩, ⟨"vpid2"⟩]⟩, ⟨[]⟩]⟩ = .ok "vpid1" :=
  c6_first_version_of_first_episode _ ⟨[⟨"vpid1"⟩, ⟨"vpid2"⟩]⟩ ⟨"vpid1"⟩ rfl rfl

/-- C7: getVersionID fails with "Episode not found" exactly when the episode
list is empty, and with "No Version available" exactly when the list is
non-empty and its first episode has no versions. -/
theorem c7_error_conditions (resp : iblEpisodesResponse) :
    (getVersionID resp = .error "Episode not found" ↔ resp.episodes = []) ∧
      (getVersionID resp = .error "No Version available" ↔
        ∃ ep, resp.episodes.head? = some ep ∧ ep.versions = []) := by
  rcases resp with ⟨eps⟩
  rcases eps with _ | ⟨e, rest⟩
  · simp [getVersionID]
  · rcases hvs : e.versions with _ | ⟨v0, vrest⟩
    · simp [getVersionID, hvs]
    · simp [getVersionID, hvs]

/-- C8: aggregation is permutation-invariant — for every non-empty track list
and every permutation of it, getMood returns the same MoodResult. -/
theorem c8_mood_permutation_invariant (l₁ l₂ : List spotifyTrackData)
    (hp : l₁.Perm l₂) (_hne : l₁ ≠ []) : getMood l₁ = getMood l₂ := by
  rw [getMood_eq, getMood_eq, (hp.map happinessQ).sum_eq, (hp.map chillQ).sum_eq,
    hp.length_eq]

/-- Witness for C8: two concrete tracks, swapped. -/
theorem c8_mood_permutation_invariant_witness :
    getMood [trackA, trackB] = getMood [trackB, trackA] :=
  c8_mood_permutation_invariant _ _ (List.Perm.swap trackB trackA []) (by simp)

/-- C9: getRecordIDs returns every segment's record ID in response order, and
the empty response produces the empty list rather than an error. -/
theorem c9_record_ids_in_order (res : playlisterResponse) :
    getRecordIDs res = res.segments.map (fun s => s.recordID) ∧
      getRecordIDs ⟨[]⟩ = [] := by
  refine ⟨?_, rfl⟩
  simpa [getRecordIDs] using foldl_append_singleton (fun s => s.recordID) res.segments []

/-- C10 counterexample: for the aggregate with chillFactor 1 and NaN
happinessFactor, the process takes the success path and exits zero, but
marshalling the NaN fails (its error is discarded), so the emitted line is the
empty string — not a success JSON object carrying the result. -/
theorem c10_counterexample :
    emitMood { chillFactor := some 1, happinessFactor := none } = .ok "" ∧
      marshalMood { chillFactor := some 1, happinessFactor := none } = none :=
  ⟨rfl, rfl⟩

/-- C10 amended: the success-path guard inspects only the chill factor, so any
result with a numeric chillFactor and NaN happinessFactor exits zero without
reporting an error; but since json.Marshal rejects NaN and its error is
discarded, the line printed is empty rather than the success JSON object. -/
theorem c10_nan_happiness_passes_guard (m : mood)
    (hh : m.happinessFactor = none) (hc : m.chillFactor ≠ none) :
    emitMood m = .ok "" := by
  rcases m with ⟨cf, hf⟩
  obtain rfl : hf = none := hh
  rcases cf with _ | cv
  · exact absurd rfl hc
  · rfl

/-- Witness for the amended C10 theorem at chillFactor 2, NaN happiness. -/
theorem c10_nan_happiness_passes_guard_witness :
    emitMood { chillFactor := some 2, happinessFactor := none } = .ok "" :=
  c10_nan_happiness_passes_guard _ rfl (by simp)

end EpisodeMood
